import Mathlib

/-!
Shallow embedding of the OneSignal `rust-service` crate
(`src/lib.rs`, `src/application.rs`, `src/logging.rs`) and proofs of the
specification claims about it.

The embedding follows the source:
* `application.rs` — `Stopping`, `Context::poll_signals` (the `chan_select!`
  drain loop over the signal channel);
* `lib.rs` — the main loop and shutdown portion of `run` (lines 104-112);
* `logging.rs` — `Logger::{enabled, log, flush, systemd_level}` and `init`.
-/

/-- An OS signal from the small closed set handled by `chan_signal`
(`Signal::INT`, `Signal::TERM` are the defaults registered by `run`). -/
inductive Signal where
  | int
  | term
  | hup
deriving DecidableEq

/-- State of the signal channel (`chan::Receiver<Signal>`): the ordered queue
of buffered signals (insertion order = arrival order) and whether the sending
side has been dropped (channel closed). -/
structure ChanState where
  queue : List Signal
  closed : Bool
deriving DecidableEq

/-- Outcome of one `chan_select!` iteration inside `Context::poll_signals`
(application.rs lines 66-73): `default` fires only when `signal.recv()` is
not ready; on an open empty channel `recv` blocks, so `default` is taken and
the loop breaks; a nonempty queue yields `Some sig`, dispatched via
`sig.map(|s| app.received_signal(s))`; a closed empty channel makes `recv`
immediately ready with `None`, so `sig.map` invokes nothing. -/
inductive SelectOutcome where
  | done
  | handled (s : Signal) (st : ChanState)
  | skipped (st : ChanState)

/-- One select step of the drain loop, from the `chan_select!` semantics. -/
def selectStep (st : ChanState) : SelectOutcome :=
  match st.queue with
  | s :: rest => SelectOutcome.handled s ⟨rest, st.closed⟩
  | [] => if st.closed then SelectOutcome.skipped st else SelectOutcome.done

/-- The drain loop of `Context::poll_signals`, indexed by the number of
select iterations allowed (`fuel`).  Returns `some (invocations, final)` when
the loop breaks within `fuel` iterations, where `invocations` is the exact
sequence of arguments passed to `app.received_signal`, in call order;
returns `none` when the loop is still running after `fuel` iterations. -/
def pollSignals : Nat → ChanState → Option (List Signal × ChanState)
  | 0, _ => none
  | Nat.succ fuel, st =>
    match selectStep st with
    | SelectOutcome.done => some ([], st)
    | SelectOutcome.handled s st2 =>
        Option.map (fun p => (s :: p.1, p.2)) (pollSignals fuel st2)
    | SelectOutcome.skipped st2 => pollSignals fuel st2

/-- `Stopping` from application.rs: whether the run loop should halt. -/
inductive Stopping where
  | yes
  | no
deriving DecidableEq

/-- Observable trace of the loop-and-shutdown portion of `run`
(lib.rs lines 104-112): the returned value, how many times
`app.run_once` was invoked, and how many times `app.shutdown` was invoked. -/
structure RunTrace (ε : Type) where
  outcome : Except ε Unit
  runOnceCalls : Nat
  shutdownCalls : Nat

/-- The main loop and shutdown of `run` (lib.rs lines 104-112):
`loop { if let Stopping::Yes = app.run_once(&context)? { break } }`
followed by `app.shutdown()?; Ok(())`.  The application's behaviour is
given as the list of successive `run_once` results (`steps`) and the
`shutdown` result (`sd`).  Returns `none` if the supplied list is exhausted
before the loop terminates (the loop would call `run_once` again). -/
def runLoop {ε : Type} (steps : List (Except ε Stopping)) (sd : Except ε Unit) :
    Option (RunTrace ε) :=
  match steps with
  | [] => none
  | Except.error e :: _ => some ⟨Except.error e, 1, 0⟩
  | Except.ok Stopping.yes :: _ => some ⟨sd, 1, 1⟩
  | Except.ok Stopping.no :: rest =>
      Option.map (fun t => RunTrace.mk t.outcome (t.runOnceCalls + 1) t.shutdownCalls)
        (runLoop rest sd)

/-- `log::Level` (log crate): discriminants Error = 1, Warn = 2, Info = 3,
Debug = 4, Trace = 5; lower value = higher severity. -/
inductive Level where
  | error
  | warn
  | info
  | debug
  | trace
deriving DecidableEq

/-- `log::LevelFilter` (log crate): Off = 0, then the five levels with the
same discriminants as `log::Level`. -/
inductive LevelFilter where
  | off
  | error
  | warn
  | info
  | debug
  | trace
deriving DecidableEq

/-- The usize discriminant of a `log::Level`, used by the log crate's
`PartialOrd` impls that `metadata.level() <= self.level` goes through. -/
def Level.toUsize : Level → Nat
  | Level.error => 1
  | Level.warn => 2
  | Level.info => 3
  | Level.debug => 4
  | Level.trace => 5

/-- The usize discriminant of a `log::LevelFilter`. -/
def LevelFilter.toUsize : LevelFilter → Nat
  | LevelFilter.off => 0
  | LevelFilter.error => 1
  | LevelFilter.warn => 2
  | LevelFilter.info => 3
  | LevelFilter.debug => 4
  | LevelFilter.trace => 5

/-- The `LevelFilter` admitting exactly the levels at least as severe as a
given `Level` (same discriminant). -/
def LevelFilter.ofLevel : Level → LevelFilter
  | Level.error => LevelFilter.error
  | Level.warn => LevelFilter.warn
  | Level.info => LevelFilter.info
  | Level.debug => LevelFilter.debug
  | Level.trace => LevelFilter.trace

/-- Severity rank: 0 is most severe.  Strictly increasing along
Error, Warn, Info, Debug, Trace. -/
def severityRank : Level → Nat
  | Level.error => 0
  | Level.warn => 1
  | Level.info => 2
  | Level.debug => 3
  | Level.trace => 4

/-- Configuration copied into `Logger` at construction (logging.rs lines
53-58): `level`, `target_filter`, `include_systemd_level`.  Immutable. -/
structure LoggerCfg where
  level : LevelFilter
  targetFilter : String
  includeSystemdLevel : Bool

/-- A `log::Record`: its level, its target, and its formatted message
(`record.args()`). -/
structure Record where
  level : Level
  target : String
  msg : String

/-- Rust's `str::starts_with(&str)`: the filter's character sequence is a
prefix of the target's character sequence. -/
def strStartsWith (s p : String) : Bool :=
  List.isPrefixOf p.data s.data

/-- `Logger::enabled` (logging.rs lines 100-102):
`metadata.level() <= self.level`, the comparison being on the log crate's
discriminants. -/
def Logger.enabled (cfg : LoggerCfg) (l : Level) : Bool :=
  l.toUsize ≤ cfg.level.toUsize

/-- `Logger::systemd_level` (logging.rs lines 83-96): when
`include_systemd_level` is set, map the record's level to a syslog priority
token; otherwise the empty string. -/
def Logger.systemdLevel (includeFlag : Bool) (l : Level) : String :=
  if includeFlag then
    match l with
    | Level.error => "<3> "
    | Level.warn => "<4> "
    | Level.info => "<5> "
    | Level.debug => "<7> "
    | Level.trace => "<7> "
  else ""

/-- State of the mutex-guarded output writer: whether the mutex is poisoned
(`self.output.lock()` returns `Err`), whether the underlying writer fails
(`writeln!` / `flush` return `Err`), and the lines written so far. -/
structure SinkState where
  poisoned : Bool
  writeErr : Bool
  out : List String
deriving DecidableEq

/-- `self.output.lock()`: `none` models the poisoned-mutex `Err` branch. -/
def lockOutput (st : SinkState) : Option (List String) :=
  if st.poisoned then none else some st.out

/-- `writeln!(writer, "{}{}", prefix, record.args())` on the locked writer:
appends one line terminated by a newline, or fails. -/
def writeLn (fails : Bool) (line : String) (out : List String) :
    Except Unit (List String) :=
  if fails then Except.error () else Except.ok (out ++ [line ++ "\n"])

/-- `Logger::log` (logging.rs lines 104-114): emit iff
`enabled(record.metadata())` and `record.target().starts_with(&self.target_filter)`;
then take the lock (silently dropping the call if that fails) and write
`"{prefix}{message}\n"`, discarding any write error. -/
def Logger.log (cfg : LoggerCfg) (r : Record) (st : SinkState) : SinkState :=
  if Logger.enabled cfg r.level && strStartsWith r.target cfg.targetFilter then
    match lockOutput st with
    | none => st
    | some out =>
      match writeLn st.writeErr
          (Logger.systemdLevel cfg.includeSystemdLevel r.level ++ r.msg) out with
      | Except.error _ => st
      | Except.ok out2 => { st with out := out2 }
  else st

/-- `Logger::flush` (logging.rs lines 117-121): take the lock (no-op if that
fails) and flush, discarding any error; the set of emitted lines is
unchanged either way. -/
def Logger.flush (st : SinkState) : SinkState :=
  match lockOutput st with
  | none => st
  | some _ => st

/-- The process-wide logger slot of the log facade.  `installed` holds the
identity of the installed logger, if any. -/
structure GlobalLogger where
  installed : Option Nat
deriving DecidableEq

/-- Modelled from the spec: the one-time installation point used by both
`log::set_boxed_logger` and `env_logger::try_init` (external to src/, only
called by `logging::init`): installing into an occupied slot fails and
leaves the previously installed logger in place. -/
def setGlobalLogger (st : GlobalLogger) (id : Nat) : GlobalLogger × Bool :=
  match st.installed with
  | some _ => (st, false)
  | none => (⟨some id⟩, true)

/-- `logging::init` (logging.rs lines 123-131): when `RUST_LOG` is set,
delegate to `env_logger::try_init`; otherwise install the built-in `Logger`
via `log::set_boxed_logger`.  Both paths go through the facade's one-time
slot. -/
def loggingInit (rustLogSet : Bool) (st : GlobalLogger) (envLoggerId builtinId : Nat) :
    GlobalLogger × Bool :=
  if rustLogSet then setGlobalLogger st envLoggerId
  else setGlobalLogger st builtinId

/-- The severity order stated by the spec for the level filter
(Error > Warn > Info > Debug == Trace, Debug and Trace equal): rank with 0
most severe.  Stated from the spec's words, for comparison with the code's
`Logger.enabled`. -/
def claimSeverityC4 : Level → Nat
  | Level.error => 0
  | Level.warn => 1
  | Level.info => 2
  | Level.debug => 3
  | Level.trace => 3

/-- The enum order stated by the spec for the minimum level
(Trace < Debug < Info < Warn < Error).  Stated from the spec's words, for
comparison with the code's `Logger.enabled`. -/
def claimOrderC9 : Level → Nat
  | Level.trace => 0
  | Level.debug => 1
  | Level.info => 2
  | Level.warn => 3
  | Level.error => 4

/-- Unfolding step: with a nonempty queue, the select takes the `recv`
branch, dispatches the head signal, and loops on the tail. -/
theorem pollSignals_cons (fuel : Nat) (s : Signal) (q : List Signal) (c : Bool) :
    pollSignals (fuel + 1) ⟨s :: q, c⟩ =
      Option.map (fun p => (s :: p.1, p.2)) (pollSignals fuel ⟨q, c⟩) := rfl

/-- Unfolding step: with an empty queue on a closed channel, `recv` is ready
with `None`, no handler is invoked, and the loop goes around again. -/
theorem pollSignals_nil_closed (fuel : Nat) :
    pollSignals (fuel + 1) ⟨[], true⟩ = pollSignals fuel ⟨[], true⟩ := rfl

/-- Helper: on an open channel buffering `sigs`, the drain loop of
`poll_signals` finishes within `sigs.length + 1` select iterations (one per
buffered signal, plus the final not-ready check that takes the `default`
branch), dispatching exactly `sigs` in order and leaving the queue empty. -/
theorem pollSignals_open_drains (sigs : List Signal) :
    pollSignals (sigs.length + 1) ⟨sigs, false⟩ = some (sigs, ⟨[], false⟩) := by
  induction sigs with
  | nil => rfl
  | cons s rest ih =>
    rw [List.length_cons, pollSignals_cons, ih]
    rfl

/-- Helper: on a closed channel, `recv` is always immediately ready (with a
buffered signal or with `None`), so the `default` branch is never taken and
the loop runs forever: no iteration bound makes it return. -/
theorem pollSignals_closed_diverges (fuel : Nat) (sigs : List Signal) :
    pollSignals fuel ⟨sigs, true⟩ = none := by
  induction fuel generalizing sigs with
  | zero => rfl
  | succ n ih =>
    cases sigs with
    | nil =>
      rw [pollSignals_nil_closed]
      exact ih []
    | cons s rest =>
      rw [pollSignals_cons, ih rest]
      rfl

/-- Unfolding step: a `Continue` result makes the loop call `run_once`
again on the remaining script, adding one to the call count. -/
theorem runLoop_cons_no {ε : Type} (l : List (Except ε Stopping)) (sd : Except ε Unit) :
    runLoop (Except.ok Stopping.no :: l) sd =
      Option.map (fun t => RunTrace.mk t.outcome (t.runOnceCalls + 1) t.shutdownCalls)
        (runLoop l sd) := rfl

/-- C1: For every sequence of N signals buffered in the signal queue before a
single call to `Context::poll_signals`, the call invokes the application's
`received_signal` handler exactly N times, once per buffered signal and in
the order the signals were queued, never blocks waiting for a new signal
(N + 1 non-blocking select iterations suffice), and returns as soon as the
queue reports empty, leaving no signals pending. -/
theorem c1_poll_signals_drains_all (sigs : List Signal) :
    pollSignals (sigs.length + 1) ⟨sigs, false⟩ = some (sigs, ⟨[], false⟩) :=
  pollSignals_open_drains sigs

/-- C2: If `run_once` returns `Continue` k times and then an error `e`, the
run loop stops immediately after that call: `run_once` was invoked exactly
k + 1 times regardless of any further scripted results, `shutdown` is never
invoked, and `e` itself is the value returned to the top-level caller. -/
theorem c2_error_skips_shutdown {ε : Type} (k : Nat) (e : ε)
    (rest : List (Except ε Stopping)) (sd : Except ε Unit) :
    runLoop (List.replicate k (Except.ok Stopping.no) ++ Except.error e :: rest) sd =
      some ⟨Except.error e, k + 1, 0⟩ := by
  induction k with
  | zero => rfl
  | succ n ih =>
    rw [List.replicate_succ, List.cons_append, runLoop_cons_no, ih]
    rfl

/-- C3: If `run_once` returns `Continue` n times and then `Stop`, the run
loop invokes `run_once` exactly n + 1 times (no further iteration happens,
whatever later results the script would supply), invokes `shutdown` exactly
once after the loop ends, and `run` propagates `shutdown`'s result. -/
theorem c3_stop_runs_shutdown_once {ε : Type} (n : Nat)
    (rest : List (Except ε Stopping)) (sd : Except ε Unit) :
    runLoop (List.replicate n (Except.ok Stopping.no) ++ Except.ok Stopping.yes :: rest) sd =
      some ⟨sd, n + 1, 1⟩ := by
  induction n with
  | zero => rfl
  | succ m ih =>
    rw [List.replicate_succ, List.cons_append, runLoop_cons_no, ih]
    rfl

/-- C4 counterexample: the claim's severity order makes Trace at least as
severe as Debug (they are declared equal for filtering), so a Trace record
with minimum level Debug would pass the level filter — but `Logger::enabled`
compares the log crate's discriminants (Trace = 5, Debug = 4) and rejects
it. -/
theorem c4_trace_debug_not_equal_counterexample :
    claimSeverityC4 Level.trace ≤ claimSeverityC4 Level.debug ∧
    Logger.enabled ⟨LevelFilter.debug, "", false⟩ Level.trace = false := by
  decide

/-- C4 amended: a record at level L passes the level filter iff L is at
least as severe as the configured minimum M, where severity is the strict
order Error > Warn > Info > Debug > Trace (Trace strictly less severe than
Debug; the two coincide only in the priority-prefix mapping), and the
minimum `Off` admits no record. -/
theorem c4_enabled_iff_at_least_as_severe :
    (∀ (l m : Level) (f : String) (b : Bool),
      Logger.enabled ⟨LevelFilter.ofLevel m, f, b⟩ l =
        decide (severityRank l ≤ severityRank m)) ∧
    (∀ (l : Level) (f : String) (b : Bool),
      Logger.enabled ⟨LevelFilter.off, f, b⟩ l = false) ∧
    severityRank Level.error < severityRank Level.warn ∧
    severityRank Level.warn < severityRank Level.info ∧
    severityRank Level.info < severityRank Level.debug ∧
    severityRank Level.debug < severityRank Level.trace := by
  refine ⟨?_, ?_, by decide, by decide, by decide, by decide⟩
  · intro l m f b
    cases l <;> cases m <;> rfl
  · intro l f b
    cases l <;> rfl

/-- C5: `Logger::log` writes output iff `enabled(record.level)` holds and
`record.target` starts with the configured target filter; the empty filter
matches every target; on a match exactly one line
`"{prefix}{message}\n"` is appended to the shared output (reached only
through the lock, here in its healthy state). -/
theorem c5_log_emits_iff_enabled_and_target :
    (∀ (cfg : LoggerCfg) (r : Record) (out : List String),
      Logger.log cfg r ⟨false, false, out⟩ =
        (if Logger.enabled cfg r.level && strStartsWith r.target cfg.targetFilter then
          (⟨false, false,
            out ++ [Logger.systemdLevel cfg.includeSystemdLevel r.level ++ r.msg ++ "\n"]⟩ :
            SinkState)
        else ⟨false, false, out⟩)) ∧
    (∀ t : String, strStartsWith t "" = true) := by
  constructor
  · intro cfg r out
    cases h : (Logger.enabled cfg r.level && strStartsWith r.target cfg.targetFilter) <;>
      simp [Logger.log, lockOutput, writeLn, h]
  · intro t
    simp [strStartsWith, List.isPrefixOf]

/-- C6: with the include-priority-prefix option enabled the prefix is
byte-exact per level (Error `"<3> "`, Warn `"<4> "`, Info `"<5> "`,
Debug `"<7> "`, Trace `"<7> "`); with the option disabled it is the empty
string for every level. -/
theorem c6_systemd_level_bytes :
    Logger.systemdLevel true Level.error = "<3> " ∧
    Logger.systemdLevel true Level.warn = "<4> " ∧
    Logger.systemdLevel true Level.info = "<5> " ∧
    Logger.systemdLevel true Level.debug = "<7> " ∧
    Logger.systemdLevel true Level.trace = "<7> " ∧
    (∀ l : Level, Logger.systemdLevel false l = "") := by
  refine ⟨rfl, rfl, rfl, rfl, rfl, ?_⟩
  intro l
  rfl

/-- C7: `Logger::log` and `Logger::flush` are total (they never propagate an
error): when the output lock is poisoned the call is a silent no-op, a write
error is discarded leaving the output unchanged, `flush` never changes the
observable output, and neither call changes the sink's lock or writer state
for subsequent calls. -/
theorem c7_log_flush_best_effort :
    (∀ (cfg : LoggerCfg) (r : Record) (w : Bool) (out : List String),
      Logger.log cfg r ⟨true, w, out⟩ = ⟨true, w, out⟩) ∧
    (∀ (cfg : LoggerCfg) (r : Record) (out : List String),
      Logger.log cfg r ⟨false, true, out⟩ = ⟨false, true, out⟩) ∧
    (∀ st : SinkState, Logger.flush st = st) ∧
    (∀ (cfg : LoggerCfg) (r : Record) (st : SinkState),
      (Logger.log cfg r st).poisoned = st.poisoned ∧
      (Logger.log cfg r st).writeErr = st.writeErr) := by
  refine ⟨?_, ?_, ?_, ?_⟩
  · intro cfg r w out
    cases h : (Logger.enabled cfg r.level && strStartsWith r.target cfg.targetFilter) <;>
      simp [Logger.log, lockOutput, h]
  · intro cfg r out
    cases h : (Logger.enabled cfg r.level && strStartsWith r.target cfg.targetFilter) <;>
      simp [Logger.log, lockOutput, writeLn, h]
  · intro st
    by_cases h : st.poisoned = true <;> simp [Logger.flush, lockOutput, h]
  · intro cfg r st
    obtain ⟨p, w, out⟩ := st
    cases p <;> cases w <;>
      cases h : (Logger.enabled cfg r.level && strStartsWith r.target cfg.targetFilter) <;>
      simp [Logger.log, lockOutput, writeLn, h]

/-- C8: at most one logger is ever installed process-wide: installation into
the empty slot succeeds (whichever branch of `init` runs), and any further
installation attempt — again through either branch — returns an error and
leaves the previously installed logger in place. -/
theorem c8_init_at_most_once :
    (∀ (rl : Bool) (e b : Nat),
      loggingInit rl ⟨none⟩ e b = (⟨some (if rl then e else b)⟩, true)) ∧
    (∀ (rl : Bool) (x e b : Nat),
      loggingInit rl ⟨some x⟩ e b = (⟨some x⟩, false)) := by
  constructor
  · intro rl e b
    cases rl <;> rfl
  · intro rl x e b
    cases rl <;> rfl

/-- C9 counterexample: under the claim's order (Trace < Debug < Info < Warn
< Error), a Trace record satisfies `level <= minimum` when the minimum is
Error, so the claim says `enabled` returns true — but `Logger::enabled`
compares the log crate's discriminants (Trace = 5, Error = 1) and returns
false. -/
theorem c9_trace_not_enabled_under_error_counterexample :
    claimOrderC9 Level.trace ≤ claimOrderC9 Level.error ∧
    Logger.enabled ⟨LevelFilter.error, "", false⟩ Level.trace = false := by
  decide

/-- C9 amended: the minimum level is ordered by the log crate's
discriminants, Error < Warn < Info < Debug < Trace (lower value = higher
severity, Trace is the largest), and `enabled(level)` returns true iff
`level <= minimum` under that order — so with minimum Error only Error-level
records satisfy `enabled`, while with minimum Trace every record does. -/
theorem c9_enabled_discriminant_order :
    (∀ (l : Level) (m : LevelFilter) (f : String) (b : Bool),
      Logger.enabled ⟨m, f, b⟩ l = true ↔ l.toUsize ≤ m.toUsize) ∧
    (Level.toUsize Level.error < Level.toUsize Level.warn ∧
     Level.toUsize Level.warn < Level.toUsize Level.info ∧
     Level.toUsize Level.info < Level.toUsize Level.debug ∧
     Level.toUsize Level.debug < Level.toUsize Level.trace) ∧
    (∀ l : Level,
      Logger.enabled ⟨LevelFilter.error, "", false⟩ l = true ↔ l = Level.error) ∧
    (∀ l : Level, Logger.enabled ⟨LevelFilter.trace, "", false⟩ l = true) := by
  refine ⟨?_, by decide, ?_, ?_⟩
  · intro l m f b
    simp [Logger.enabled]
  · intro l
    cases l <;> decide
  · intro l
    cases l <;> rfl

/-- C10: `Context::poll_signals` terminates exactly when the signal channel
is open: with an open channel buffering finitely many signals the drain loop
reaches the empty case within a bounded number of select iterations and
returns, while with a closed channel the receive branch stays permanently
selectable (yielding `None`, which invokes no handler) and no iteration
bound makes the loop return. -/
theorem c10_poll_signals_termination_iff_open :
    (∀ sigs : List Signal,
      pollSignals (sigs.length + 1) ⟨sigs, false⟩ = some (sigs, ⟨[], false⟩)) ∧
    (∀ (fuel : Nat) (sigs : List Signal), pollSignals fuel ⟨sigs, true⟩ = none) :=
  ⟨pollSignals_open_drains, pollSignals_closed_diverges⟩
